import Mathlib

/-!
Verification of the Llama-Han repository (two Python scripts:
src/llama_evaluate.py and src/finetune.py) against its natural-language
specification.

The scripts are shallowly embedded: Python strings become lists of
characters (slicing and formatting are by characters), Python option-like
values (argparse attributes that default to None) become Option, a Python
list comprehension whose body may raise becomes an Option-valued fold, and
the sequential, uncaught-exception execution of the metric stage becomes an
explicit short-circuiting function.  External library calls (the chat
template, the generation pipeline, the metric implementations) are left as
parameters of the theorems or modelled by their documented input/output
shape.
-/

namespace Llama

/-- A Python string, embedded as its sequence of characters. -/
abbrev PyStr := List Char

/-- The character sequence of a Lean string literal. -/
def lit (s : String) : PyStr := s.data

/-- A dataset row with fields classical, modern, english
(llama_evaluate.py lines 85 and 87: the modern column is only selected in
chain-of-thought mode; a direct-mode row simply never reads the field). -/
structure Row where
  classical : PyStr
  modern : PyStr
  english : PyStr

/-- llama_evaluate.py line 92: the chain-of-thought prompt template,
applied to its three fields. -/
def format_cot (classical modern english : PyStr) : PyStr :=
  lit ("Classical: ") ++ classical ++ lit ("\nModern: ") ++ modern
    ++ lit ("\nEnglish: ") ++ english

/-- llama_evaluate.py line 94: the direct prompt template, applied to its
two fields. -/
def format_direct (classical english : PyStr) : PyStr :=
  lit ("Classical: ") ++ classical ++ lit ("\nEnglish: ") ++ english

/-- prompt_template.format applied to a whole row (line 98). -/
def format_row (cot : Bool) (r : Row) : PyStr :=
  if cot then format_cot r.classical r.modern r.english
  else format_direct r.classical r.english

/-- llama_evaluate.py line 88: dataset_test.select of the first num_shots
rows (the script requires num_shots to not exceed the dataset length). -/
def dataset_examples (num_shots : Nat) (dataset_test : List Row) : List Row :=
  dataset_test.take num_shots

/-- llama_evaluate.py line 89: the remaining rows, used for prediction. -/
def dataset_predict (num_shots : Nat) (dataset_test : List Row) : List Row :=
  dataset_test.drop num_shots

/-- llama_evaluate.py lines 95-98: the example block is the empty string
for zero shots, else the formatted example rows joined by double
newlines. -/
def prompt_examples (cot : Bool) (num_shots : Nat) (dataset_test : List Row) : PyStr :=
  if num_shots = 0 then []
  else List.intercalate (lit ("\n\n"))
    ((dataset_examples num_shots dataset_test).map (format_row cot))

/-- llama_evaluate.py line 107: the chain-of-thought instruction string. -/
def instruction_cot : PyStr :=
  lit ("Translate the following sentence from classical Chinese into modern Chinese and then into English. Provide only the translation:")

/-- llama_evaluate.py line 112: the direct instruction string. -/
def instruction_direct : PyStr :=
  lit ("Translate the following sentence from Classical Chinese into English. Provide only the translation:")

/-- llama_evaluate.py lines 106-113: the prompt for one target row: the
example block, a newline, the instruction, and the target row rendered
with the answer field(s) empty and the last character sliced off
(Python [:-1] becomes dropLast). -/
def prompt (cot : Bool) (pe : PyStr) (row : Row) : PyStr :=
  if cot then
    pe ++ lit ("\n") ++ instruction_cot
      ++ (format_cot row.classical [] []).dropLast
  else
    pe ++ lit ("\n") ++ instruction_direct
      ++ (format_direct row.classical []).dropLast

/-- A Python value as stored in an argparse namespace. -/
inductive PyValue
  | vstr (s : PyStr)
  | vint (n : Int)
  | vbool (b : Bool)
  | vnone
deriving DecidableEq

/-- The command line as accepted by the parser of llama_evaluate.py lines
15-23: each declared optional flag either supplied with a value or
absent. -/
structure Args where
  model_path : Option PyStr
  new_model_path : Option PyStr
  dataset_path : Option PyStr
  dataset_config : Option PyStr
  num_shots : Option Int
  finetune : Option Bool

/-- An absent argparse flag is stored as None. -/
def opt_val (f : α → PyValue) : Option α → PyValue
  | some a => f a
  | none => PyValue.vnone

/-- llama_evaluate.py lines 15-23: the namespace produced by
parser.parse_args, one attribute per declared flag, in declaration
order. -/
def parse_args (a : Args) : List (PyStr × PyValue) :=
  [ (lit ("model_path"), opt_val PyValue.vstr a.model_path),
    (lit ("new_model_path"), opt_val PyValue.vstr a.new_model_path),
    (lit ("dataset_path"), opt_val PyValue.vstr a.dataset_path),
    (lit ("dataset_config"), opt_val PyValue.vstr a.dataset_config),
    (lit ("num_shots"), opt_val PyValue.vint a.num_shots),
    (lit ("finetune"), opt_val PyValue.vbool a.finetune) ]

/-- Python attribute read on a namespace: the value when the attribute
exists, failure (AttributeError) when it does not. -/
def getattr (ns : List (PyStr × PyValue)) (name : PyStr) : Option PyValue :=
  (ns.find? (fun p => p.1 == name)).map Prod.snd

/-- The model_config section of config.yaml as read by
llama_evaluate.py lines 35-38. -/
structure ModelCfg where
  model_path : PyStr
  new_model_path : PyStr
  dataset_path : PyStr
  dataset_config : PyStr

/-- The eval_config section of config.yaml as read by
llama_evaluate.py lines 39 and 41. -/
structure EvalCfg where
  num_shots : Int
  cot : Bool

/-- Python `a if a else cfg` on an optional string: the supplied value
when truthy (present and non-empty), else the configuration value. -/
def py_or_str (a : Option PyStr) (cfg : PyStr) : PyStr :=
  match a with
  | some s => if s = [] then cfg else s
  | none => cfg

/-- Python `a if a else cfg` on an optional integer: the supplied value
when truthy (present and non-zero), else the configuration value. -/
def py_or_int (a : Option Int) (cfg : Int) : Int :=
  match a with
  | some n => if n = 0 then cfg else n
  | none => cfg

/-- llama_evaluate.py line 35. -/
def model_path (args : Args) (model_cfg : ModelCfg) : PyStr :=
  py_or_str args.model_path model_cfg.model_path

/-- llama_evaluate.py line 36. -/
def new_model_path (args : Args) (model_cfg : ModelCfg) : PyStr :=
  py_or_str args.new_model_path model_cfg.new_model_path

/-- llama_evaluate.py line 37. -/
def dataset_path (args : Args) (model_cfg : ModelCfg) : PyStr :=
  py_or_str args.dataset_path model_cfg.dataset_path

/-- llama_evaluate.py line 38. -/
def dataset_config (args : Args) (model_cfg : ModelCfg) : PyStr :=
  py_or_str args.dataset_config model_cfg.dataset_config

/-- llama_evaluate.py line 39. -/
def num_shots (args : Args) (eval_cfg : EvalCfg) : Int :=
  py_or_int args.num_shots eval_cfg.num_shots

/-- llama_evaluate.py line 40: `args.finetune if args.finetune else False`
(the configuration is never consulted for this flag). -/
def finetune (args : Args) : Bool :=
  match args.finetune with
  | some b => if b then b else false
  | none => false

/-- One entry of a pipeline output: a dict carrying the generated text. -/
structure GenOut where
  generated_text : PyStr
deriving DecidableEq

/-- A Python list comprehension whose body may raise: it fails as soon as
one element fails, else yields the list of results in order. -/
def listcomp (f : α → Option β) : List α → Option (List β)
  | [] => some []
  | x :: xs =>
    match f x with
    | none => none
    | some y =>
      match listcomp f xs with
      | none => none
      | some ys => some (y :: ys)

/-- llama_evaluate.py lines 101-121: the prompts list, one chat-templated
prompt per predict row, in row order; chat is the external
apply_chat_template. -/
def build_prompts (cot : Bool) (chat : PyStr → PyStr) (pe : PyStr)
    (rows : List Row) : List PyStr :=
  rows.map (fun r => chat (prompt cot pe r))

/-- llama_evaluate.py lines 101-121: the references list, one singleton
list holding the english field per predict row, in row order. -/
def build_references (rows : List Row) : List (List PyStr) :=
  rows.map (fun r => [r.english])

/-- llama_evaluate.py line 134: the predictions comprehension.  For each
(output, prompt) pair of the zip, output[0] is read (failing on an empty
output) and the first len(prompt) characters of its generated text are
sliced off. -/
def predictions (outputs : List (List GenOut)) (prompts : List PyStr) :
    Option (List PyStr) :=
  listcomp
    (fun op =>
      (op.1.head?).map (fun g => g.generated_text.drop op.2.length))
    (outputs.zip prompts)

/-- One metric invocation: the metric name and the two keyword arguments
passed to compute. -/
structure MetricCall where
  metric : PyStr
  predictions : List PyStr
  references : List (List PyStr)

/-- llama_evaluate.py lines 137-150: the three compute invocations, each
receiving the same predictions list and the same references list. -/
def metric_calls (preds : List PyStr) (refs : List (List PyStr)) :
    List MetricCall :=
  [ ⟨lit ("sacrebleu"), preds, refs⟩,
    ⟨lit ("meteor"), preds, refs⟩,
    ⟨lit ("chrf"), preds, refs⟩ ]

/-- llama_evaluate.py lines 137-150: sequential execution of the three
compute calls with no exception handling: an uncaught failure stops the
script, so the results produced are those of the stages before the first
failure, paired with that first failure if any. -/
def metric_stage (o1 o2 o3 : Except ε ρ) : List ρ × Option ε :=
  match o1 with
  | Except.error e => ([], some e)
  | Except.ok r1 =>
    match o2 with
    | Except.error e => ([r1], some e)
    | Except.ok r2 =>
      match o3 with
      | Except.error e => ([r1, r2], some e)
      | Except.ok r3 => ([r1, r2, r3], none)

/-- llama_evaluate.py lines 152-157: the closing report loop prints, for
each index 0..9, the prediction at that index and element 0 of the
reference list at that index; an out-of-range index fails
(IndexError). -/
def example_report (preds : List PyStr) (refs : List (List PyStr)) :
    Option (List (PyStr × PyStr)) :=
  listcomp
    (fun i =>
      match preds[i]?, refs[i]? with
      | some p, some r => (r[0]?).map (fun r0 => (p, r0))
      | _, _ => none)
    (List.range 10)

/-- A persisted artifact written by finetune.py: the adapter-only weights,
the merged full-weight model, or the tokenizer files, each with the
directory it is saved to. -/
inductive SaveEvent
  | adapter (path : PyStr)
  | merged (path : PyStr)
  | tokenizer (path : PyStr)
deriving DecidableEq

/-- The directory a save event writes to. -/
def SaveEvent.path : SaveEvent → PyStr
  | SaveEvent.adapter p => p
  | SaveEvent.merged p => p
  | SaveEvent.tokenizer p => p

/-- finetune.py line 119: the adapter directory name. -/
def new_model_path_lora (nmp : PyStr) : PyStr := nmp ++ lit ("-lora")

/-- finetune.py lines 118-134, in program order: the adapter weights are
saved (line 120), then the merged model (line 132), then the tokenizer
(line 133). -/
def finetune_save_trace (nmp : PyStr) : List SaveEvent :=
  [SaveEvent.adapter (new_model_path_lora nmp)] ++
  [SaveEvent.merged nmp] ++
  [SaveEvent.tokenizer nmp]

/-! ## Helper lemmas -/

/-- A comprehension that succeeds yields one element per input element. -/
lemma listcomp_length (f : α → Option β) (xs : List α) :
    ∀ ys, listcomp f xs = some ys → ys.length = xs.length := by
  induction xs with
  | nil =>
    intro ys h
    simp only [listcomp, Option.some.injEq] at h
    simp [← h]
  | cons x xs ih =>
    intro ys h
    simp only [listcomp] at h
    cases hfx : f x with
    | none => rw [hfx] at h; exact absurd h (by simp)
    | some y =>
      rw [hfx] at h
      cases hrec : listcomp f xs with
      | none => rw [hrec] at h; exact absurd h (by simp)
      | some ys2 =>
        rw [hrec] at h
        simp only [Option.some.injEq] at h
        subst h
        simp [ih ys2 hrec]

/-- A comprehension whose body succeeds everywhere is a map. -/
lemma listcomp_congr_some (f : α → Option β) (g : α → β) (xs : List α)
    (hfg : ∀ x ∈ xs, f x = some (g x)) :
    listcomp f xs = some (xs.map g) := by
  induction xs with
  | nil => rfl
  | cons x xs ih =>
    simp only [listcomp]
    rw [hfg x (List.mem_cons_self x xs),
      ih (fun y hy => hfg y (List.mem_cons_of_mem x hy))]
    simp

/-- Mapping a curried function over a zip is zipWith. -/
lemma map_zip_eq_zipWith (f : α → β → γ) :
    ∀ (l1 : List α) (l2 : List β),
      (l1.zip l2).map (fun p => f p.1 p.2) = List.zipWith f l1 l2
  | [], _ => by simp
  | _ :: _, [] => by simp
  | a :: l1, b :: l2 => by
    simp [List.zip_cons_cons, map_zip_eq_zipWith f l1 l2]

/-- Appending a character and then dropping the last character is the
identity, and the dropped character is the appended one. -/
lemma append_char_strip (a : PyStr) (x : Char) :
    (a ++ [x]).dropLast = a ∧ (a ++ [x]).getLast? = some x :=
  ⟨List.dropLast_concat, List.getLast?_concat a⟩

/-! ## C1 -/

/-- C1 counterexample: at shot count 0 with a concrete target row, the
example block is empty, yet the constructed prompt does not start with
the instruction text: its first character is a newline separator emitted
before the instruction. -/
theorem C1_counterexample :
    prompt_examples false 0 [] = [] ∧
    instruction_direct.isPrefixOf
      (prompt false (prompt_examples false 0 []) ⟨lit ("abc"), [], lit ("x")⟩)
      = false ∧
    (prompt false (prompt_examples false 0 [])
      ⟨lit ("abc"), [], lit ("x")⟩).head? = some '\n' := by
  refine ⟨rfl, ?_, rfl⟩
  decide

/-- C1 amended: at shot count 0 the example block is the empty string and
the prompt carries no example content, but the prompt is a newline
followed by the instruction and the stripped target rendering, so a
leading newline separator does precede the instruction. -/
theorem C1_zero_shot_prompt (cot : Bool) (dataset_test : List Row) (row : Row) :
    prompt_examples cot 0 dataset_test = [] ∧
    prompt cot (prompt_examples cot 0 dataset_test) row =
      lit ("\n") ++
        (if cot then
          instruction_cot ++ (format_cot row.classical [] []).dropLast
        else
          instruction_direct ++ (format_direct row.classical []).dropLast) := by
  have hpe : prompt_examples cot 0 dataset_test = [] := by simp [prompt_examples]
  refine ⟨hpe, ?_⟩
  rw [hpe]
  cases cot <;> simp [prompt, List.append_assoc]

/-- C1 amended witness at a concrete target row in direct mode. -/
theorem C1_zero_shot_prompt_witness :
    prompt_examples false 0 [] = [] ∧
    prompt false (prompt_examples false 0 []) ⟨lit ("ab"), [], lit ("x")⟩ =
      lit ("\n") ++
        (if false then
          instruction_cot ++ (format_cot (lit ("ab")) [] []).dropLast
        else
          instruction_direct ++
            (format_direct (lit ("ab")) []).dropLast) :=
  C1_zero_shot_prompt false [] ⟨lit ("ab"), [], lit ("x")⟩

/-! ## C2 -/

/-- C2: for every command line accepted by the parser, the parsed
namespace holds exactly the six declared flags, no cot attribute exists,
and the attribute read of cot at the cot-selection line fails rather than
yielding a value. -/
theorem C2_cot_flag_not_declared (a : Args) :
    getattr (parse_args a) (lit ("cot")) = none ∧
    lit ("cot") ∉ (parse_args a).map Prod.fst := by
  constructor
  · rfl
  · simp only [parse_args, List.map_cons, List.map_nil, List.mem_cons]
    decide

/-- C2 witness at an empty command line. -/
theorem C2_cot_flag_not_declared_witness :
    getattr (parse_args ⟨none, none, none, none, none, none⟩) (lit ("cot"))
      = none :=
  (C2_cot_flag_not_declared ⟨none, none, none, none, none, none⟩).1

/-! ## C3 -/

/-- C3 counterexample: the shot-count flag supplied with value 0 does not
override the configuration: the effective shot count is the configured 5,
not the supplied 0 (Python truthiness ignores falsy supplied values). -/
theorem C3_counterexample :
    num_shots ⟨none, none, none, none, some 0, none⟩ ⟨5, false⟩ = 5 ∧
    num_shots ⟨none, none, none, none, some 0, none⟩ ⟨5, false⟩ ≠ 0 := by
  constructor
  · rfl
  · decide

/-- C3 amended: a flag supplied with a truthy value (non-empty string,
non-zero shot count, True) overrides the configuration; an absent flag
falls back to the configuration for the four string flags and the shot
count; a supplied falsy value (empty string, shot count 0) also falls
back to the configuration; the finetune flag never reads the
configuration: it is its supplied value when present and False when
absent. -/
theorem C3_flag_override (args : Args) (mcfg : ModelCfg) (ecfg : EvalCfg) :
    (∀ s, args.model_path = some s → s ≠ [] →
      model_path args mcfg = s) ∧
    (args.model_path = none → model_path args mcfg = mcfg.model_path) ∧
    (args.model_path = some [] → model_path args mcfg = mcfg.model_path) ∧
    (∀ s, args.new_model_path = some s → s ≠ [] →
      new_model_path args mcfg = s) ∧
    (args.new_model_path = none →
      new_model_path args mcfg = mcfg.new_model_path) ∧
    (∀ s, args.dataset_path = some s → s ≠ [] →
      dataset_path args mcfg = s) ∧
    (args.dataset_path = none → dataset_path args mcfg = mcfg.dataset_path) ∧
    (∀ s, args.dataset_config = some s → s ≠ [] →
      dataset_config args mcfg = s) ∧
    (args.dataset_config = none →
      dataset_config args mcfg = mcfg.dataset_config) ∧
    (∀ n, args.num_shots = some n → n ≠ 0 → num_shots args ecfg = n) ∧
    (args.num_shots = none → num_shots args ecfg = ecfg.num_shots) ∧
    (args.num_shots = some 0 → num_shots args ecfg = ecfg.num_shots) ∧
    (∀ b, args.finetune = some b → finetune args = b) ∧
    (args.finetune = none → finetune args = false) := by
  refine ⟨?_, ?_, ?_, ?_, ?_, ?_, ?_, ?_, ?_, ?_, ?_, ?_, ?_, ?_⟩
  · intro s hs hne; simp [model_path, py_or_str, hs, hne]
  · intro hs; simp [model_path, py_or_str, hs]
  · intro hs; simp [model_path, py_or_str, hs]
  · intro s hs hne; simp [new_model_path, py_or_str, hs, hne]
  · intro hs; simp [new_model_path, py_or_str, hs]
  · intro s hs hne; simp [dataset_path, py_or_str, hs, hne]
  · intro hs; simp [dataset_path, py_or_str, hs]
  · intro s hs hne; simp [dataset_config, py_or_str, hs, hne]
  · intro hs; simp [dataset_config, py_or_str, hs]
  · intro n hn hne; simp [num_shots, py_or_int, hn, hne]
  · intro hn; simp [num_shots, py_or_int, hn]
  · intro hn; simp [num_shots, py_or_int, hn]
  · intro b hb; cases b <;> simp [finetune, hb]
  · intro hb; simp [finetune, hb]

/-- C3 witness: a supplied non-empty model path overrides the configured
one, and an absent shot-count flag falls back to the configured value. -/
theorem C3_flag_override_witness :
    model_path ⟨some (lit ("m")), none, none, none, none, none⟩
      ⟨lit ("c"), lit ("n"), lit ("d"), lit ("g")⟩ = lit ("m") ∧
    num_shots ⟨some (lit ("m")), none, none, none, none, none⟩ ⟨5, false⟩ = 5 := by
  have h := C3_flag_override ⟨some (lit ("m")), none, none, none, none, none⟩
    ⟨lit ("c"), lit ("n"), lit ("d"), lit ("g")⟩ ⟨5, false⟩
  exact ⟨h.1 (lit ("m")) rfl (by decide), h.2.2.2.2.2.2.2.2.2.2.1 rfl⟩

/-! ## C4 -/

/-- C4: for every shot count k greater than zero that fits the dataset,
the example block is exactly the first k dataset rows rendered through
the prompt template and joined by double newlines, and that joined list
holds exactly k formatted rows. -/
theorem C4_example_block (cot : Bool) (k : Nat) (dataset_test : List Row)
    (hk : 0 < k) (hlen : k ≤ dataset_test.length) :
    prompt_examples cot k dataset_test =
      List.intercalate (lit ("\n\n"))
        ((dataset_test.take k).map (format_row cot)) ∧
    ((dataset_test.take k).map (format_row cot)).length = k := by
  constructor
  · simp [prompt_examples, dataset_examples, hk.ne']
  · simp [List.length_map, List.length_take, Nat.min_eq_left hlen]

/-- C4 witness: two shots over a three-row dataset. -/
theorem C4_example_block_witness :
    prompt_examples false 2
      [⟨lit ("a"), [], lit ("x")⟩, ⟨lit ("b"), [], lit ("y")⟩, ⟨lit ("c"), [], lit ("z")⟩] =
      List.intercalate (lit ("\n\n"))
        (([(⟨lit ("a"), [], lit ("x")⟩ : Row), ⟨lit ("b"), [], lit ("y")⟩,
          ⟨lit ("c"), [], lit ("z")⟩].take 2).map (format_row false)) ∧
    (([(⟨lit ("a"), [], lit ("x")⟩ : Row), ⟨lit ("b"), [], lit ("y")⟩,
      ⟨lit ("c"), [], lit ("z")⟩].take 2).map (format_row false)).length = 2 :=
  C4_example_block false 2
    [⟨lit ("a"), [], lit ("x")⟩, ⟨lit ("b"), [], lit ("y")⟩, ⟨lit ("c"), [], lit ("z")⟩]
    (by decide) (by decide)

/-! ## C5 -/

/-- C5: rendering either template with the answer field(s) empty and then
slicing off one final character removes exactly the trailing separator
space of the template and never a content character: the stripped string
is the literal prefix, the intact source text, and the field labels with
the final space gone, and the removed character is that space. -/
theorem C5_template_strip (c : PyStr) (h : c ≠ []) :
    (format_direct c []).dropLast =
      lit ("Classical: ") ++ c ++ lit ("\nEnglish:") ∧
    (format_direct c []).getLast? = some ' ' ∧
    (format_cot c [] []).dropLast =
      lit ("Classical: ") ++ c ++ lit ("\nModern: \nEnglish:") ∧
    (format_cot c [] []).getLast? = some ' ' := by
  have h2 : lit ("\nEnglish: ") = lit ("\nEnglish:") ++ [' '] := by decide
  have h4 : lit ("\nModern: ") ++ lit ("\nEnglish:") = lit ("\nModern: \nEnglish:") := by
    decide
  have e1 : format_direct c [] =
      (lit ("Classical: ") ++ c ++ lit ("\nEnglish:")) ++ [' '] := by
    simp only [format_direct, List.append_nil]
    rw [h2, ← List.append_assoc]
  have e2 : format_cot c [] [] =
      (lit ("Classical: ") ++ c ++ lit ("\nModern: \nEnglish:")) ++ [' '] := by
    simp only [format_cot, List.append_nil]
    rw [h2, ← List.append_assoc, List.append_assoc (lit ("Classical: ") ++ c), h4]
  refine ⟨?_, ?_, ?_, ?_⟩
  · rw [e1]; exact (append_char_strip _ ' ').1
  · rw [e1]; exact (append_char_strip _ ' ').2
  · rw [e2]; exact (append_char_strip _ ' ').1
  · rw [e2]; exact (append_char_strip _ ' ').2

/-- C5 witness at a concrete two-character source text. -/
theorem C5_template_strip_witness :
    (format_direct (lit ("ab")) []).dropLast =
      lit ("Classical: ") ++ lit ("ab") ++ lit ("\nEnglish:") ∧
    (format_direct (lit ("ab")) []).getLast? = some ' ' ∧
    (format_cot (lit ("ab")) [] []).dropLast =
      lit ("Classical: ") ++ lit ("ab") ++ lit ("\nModern: \nEnglish:") ∧
    (format_cot (lit ("ab")) [] []).getLast? = some ' ' :=
  C5_template_strip (lit ("ab")) (by decide)

/-! ## C7 -/

/-- C7 counterexample: when the first metric computation fails, the later
two are not computed even though each would succeed on its own: the run
aborts with the first failure and produces no metric results, so a
failure of one metric computation does block the others. -/
theorem C7_counterexample :
    metric_stage (Except.error (lit ("sacrebleu failed")))
        (Except.ok (lit ("meteor result"))) (Except.ok (lit ("chrf result"))) =
      (([] : List PyStr), some (lit ("sacrebleu failed"))) ∧
    lit ("meteor result") ∉
      (metric_stage (Except.error (lit ("sacrebleu failed")))
        (Except.ok (lit ("meteor result"))) (Except.ok (lit ("chrf result")))).1 := by
  exact ⟨rfl, by decide⟩

/-- C7 amended: the three metric computations run sequentially with no
data dependence between them: when all succeed, all three results are
produced in order; a failure of an earlier stage aborts the run
immediately, so exactly the results of the stages before the first
failure are produced and the later metrics are not computed. -/
theorem C7_sequential_stages (e : PyStr) (r1 r2 r3 : PyStr) :
    metric_stage (Except.ok r1 : Except PyStr PyStr) (Except.ok r2)
        (Except.ok r3) = ([r1, r2, r3], none) ∧
    metric_stage (Except.error e) (Except.ok r2) (Except.ok r3) =
      (([] : List PyStr), some e) ∧
    metric_stage (Except.ok r1) (Except.error e) (Except.ok r3) =
      ([r1], some e) ∧
    metric_stage (Except.ok r1) (Except.ok r2) (Except.error e) =
      ([r1, r2], some e) :=
  ⟨rfl, rfl, rfl, rfl⟩

/-- C7 witness at concrete outcomes. -/
theorem C7_sequential_stages_witness :
    metric_stage (Except.error (lit ("e"))) (Except.ok (lit ("a")))
        (Except.ok (lit ("b"))) = (([] : List PyStr), some (lit ("e"))) :=
  (C7_sequential_stages (lit ("e")) (lit ("z")) (lit ("a")) (lit ("b"))).2.1

/-! ## C8 -/

/-- C8: when the pipeline yields one non-empty output per prompt, the
predictions comprehension succeeds and yields exactly one prediction per
prompt, in prompt order, each being the generated text of that prompt
with its first len(prompt) characters removed. -/
theorem C8_predictions_trimmed (outputs : List (List GenOut))
    (prompts : List PyStr)
    (hlen : outputs.length = prompts.length)
    (hne : ∀ o ∈ outputs, o ≠ []) :
    predictions outputs prompts =
      some (List.zipWith
        (fun o p => (o.headD (GenOut.mk [])).generated_text.drop p.length)
        outputs prompts) ∧
    (List.zipWith
      (fun o p => (o.headD (GenOut.mk [])).generated_text.drop p.length)
      outputs prompts).length = prompts.length := by
  constructor
  · rw [predictions,
      listcomp_congr_some _
        (fun op => ((op.1.headD (GenOut.mk [])).generated_text.drop
          op.2.length))
        (outputs.zip prompts) ?_]
    · exact congrArg some
        (map_zip_eq_zipWith
          (fun o p =>
            (o.headD (GenOut.mk [])).generated_text.drop p.length)
          outputs prompts)
    · intro op hop
      have hmem := (List.of_mem_zip hop).1
      cases hop1 : op.1 with
      | nil => exact absurd hop1 (hne op.1 hmem)
      | cons g gs => simp [hop1]
  · rw [List.length_zipWith, hlen, Nat.min_self]

/-- C8 witness: one prompt of two characters, one output extending it. -/
theorem C8_predictions_trimmed_witness :
    predictions [[GenOut.mk (lit ("PQout"))]] [lit ("PQ")] =
      some (List.zipWith
        (fun o p => (o.headD (GenOut.mk [])).generated_text.drop p.length)
        [[GenOut.mk (lit ("PQout"))]] [lit ("PQ")]) ∧
    (List.zipWith
      (fun o p => (o.headD (GenOut.mk [])).generated_text.drop p.length)
      [[GenOut.mk (lit ("PQout"))]] [lit ("PQ")]).length = 1 :=
  C8_predictions_trimmed [[GenOut.mk (lit ("PQout"))]] [lit ("PQ")] rfl
    (by decide)

/-! ## C6 -/

/-- C6: every one of the three metric computations receives the very same
prediction list and the very same reference list, the references are one
singleton reference list per predict row, and their number equals the
number of predictions. -/
theorem C6_metric_calls_shape (cot : Bool) (chat : PyStr → PyStr)
    (pe : PyStr) (rows : List Row) (outputs : List (List GenOut))
    (preds : List PyStr)
    (hout : outputs.length = (build_prompts cot chat pe rows).length)
    (hp : predictions outputs (build_prompts cot chat pe rows) = some preds) :
    (metric_calls preds (build_references rows)).map
      MetricCall.predictions = [preds, preds, preds] ∧
    (metric_calls preds (build_references rows)).map
      MetricCall.references =
      [build_references rows, build_references rows,
        build_references rows] ∧
    (build_references rows).length = preds.length ∧
    ∀ r ∈ build_references rows, r.length = 1 := by
  have hplen : preds.length = rows.length := by
    have h1 := listcomp_length _ _ preds hp
    rw [List.length_zip, hout] at h1
    simp only [Nat.min_self] at h1
    rw [h1, build_prompts, List.length_map]
  refine ⟨rfl, rfl, ?_, ?_⟩
  · rw [build_references, List.length_map, hplen]
  · intro r hr
    obtain ⟨row, _, rfl⟩ := List.mem_map.mp hr
    rfl

set_option maxRecDepth 4000 in
/-- C6 witness: one predict row, one output, identity chat template. -/
theorem C6_metric_calls_shape_witness :
    (metric_calls [([] : PyStr)]
      (build_references [⟨lit ("a"), [], lit ("x")⟩])).map
      MetricCall.predictions = [[[]], [[]], [[]]] ∧
    (build_references [⟨lit ("a"), [], lit ("x")⟩]).length =
      ([([] : PyStr)]).length := by
  have h := C6_metric_calls_shape false id [] [⟨lit ("a"), [], lit ("x")⟩]
    [[GenOut.mk []]] [[]] rfl rfl
  exact ⟨h.1, h.2.2.1⟩

/-! ## C9 -/

/-- The adapter directory name differs from the merged-model directory
name: the suffix makes it strictly longer. -/
lemma lora_path_ne (nmp : PyStr) : new_model_path_lora nmp ≠ nmp := by
  intro h
  have hl := congrArg List.length h
  rw [new_model_path_lora, List.length_append] at hl
  have h5 : (lit ("-lora")).length = 5 := rfl
  rw [h5] at hl
  omega

/-- C9: the fine-tuning script saves the adapter-only weights to the
new-model path with the -lora suffix appended, afterwards saves the
merged full-weight model and then the tokenizer to the new-model path
itself, and no later save writes to the adapter directory, which remains
a separately saved artifact at a distinct path. -/
theorem C9_save_artifacts (nmp : PyStr) :
    finetune_save_trace nmp =
      [SaveEvent.adapter (nmp ++ lit ("-lora")), SaveEvent.merged nmp,
        SaveEvent.tokenizer nmp] ∧
    new_model_path_lora nmp ≠ nmp ∧
    ∀ e ∈ (finetune_save_trace nmp).drop 1,
      SaveEvent.path e ≠ new_model_path_lora nmp := by
  refine ⟨rfl, lora_path_ne nmp, ?_⟩
  intro e he
  simp only [finetune_save_trace, new_model_path_lora, List.cons_append,
    List.nil_append, List.drop_succ_cons, List.drop_zero,
    List.mem_cons, List.not_mem_nil, or_false] at he
  rcases he with rfl | rfl <;>
    · simp only [SaveEvent.path]
      exact fun h => lora_path_ne nmp h.symm

/-- C9 witness at a concrete new-model path. -/
theorem C9_save_artifacts_witness :
    finetune_save_trace (lit ("m")) =
      [SaveEvent.adapter (lit ("m") ++ lit ("-lora")),
        SaveEvent.merged (lit ("m")), SaveEvent.tokenizer (lit ("m"))] :=
  (C9_save_artifacts (lit ("m"))).1

/-! ## C10 -/

/-- C10 counterexample: a run whose predict slice has three rows reaches
the reporting stage with three predictions and three references, and the
report loop then fails on the out-of-range index instead of printing ten
example pairs. -/
theorem C10_counterexample :
    predictions [[GenOut.mk []], [GenOut.mk []], [GenOut.mk []]]
        (build_prompts false id []
          [⟨lit ("a"), [], lit ("x")⟩, ⟨lit ("b"), [], lit ("y")⟩,
            ⟨lit ("c"), [], lit ("z")⟩]) = some [[], [], []] ∧
    example_report [[], [], []]
        (build_references
          [⟨lit ("a"), [], lit ("x")⟩, ⟨lit ("b"), [], lit ("y")⟩,
            ⟨lit ("c"), [], lit ("z")⟩]) = none := by
  exact ⟨rfl, rfl⟩

/-- C10 amended: when at least ten predictions and at least ten non-empty
reference lists are available, the closing report succeeds and prints
exactly the ten pairs of the prediction and the first reference at each
of the indices 0 through 9; with fewer than ten the loop fails on an
out-of-range index. -/
theorem C10_report_ten (preds : List PyStr) (refs : List (List PyStr))
    (hp : 10 ≤ preds.length) (hr : 10 ≤ refs.length)
    (h0 : ∀ r ∈ refs, r ≠ []) :
    example_report preds refs =
      some ((List.range 10).map
        (fun i => (preds.getD i [], (refs.getD i []).getD 0 []))) := by
  rw [example_report]
  apply listcomp_congr_some
  intro i hi
  have hi10 : i < 10 := List.mem_range.mp hi
  have hip : i < preds.length := lt_of_lt_of_le hi10 hp
  have hir : i < refs.length := lt_of_lt_of_le hi10 hr
  have hofs : 0 < (refs[i]).length := by
    have hne := h0 (refs[i]) (List.getElem_mem hir)
    exact List.length_pos.mpr hne
  rw [List.getElem?_eq_getElem hip, List.getElem?_eq_getElem hir]
  dsimp only
  rw [List.getElem?_eq_getElem hofs]
  simp only [Option.map_some']
  rw [List.getD_eq_getElem?_getD preds, List.getD_eq_getElem?_getD refs,
    List.getElem?_eq_getElem hip, List.getElem?_eq_getElem hir]
  simp only [Option.getD_some]
  rw [List.getD_eq_getElem?_getD, List.getElem?_eq_getElem hofs]
  simp only [Option.getD_some]

/-- C10 witness: ten singleton predictions and references. -/
theorem C10_report_ten_witness :
    example_report
        [lit ("p0"), lit ("p1"), lit ("p2"), lit ("p3"), lit ("p4"), lit ("p5"),
          lit ("p6"), lit ("p7"), lit ("p8"), lit ("p9")]
        [[lit ("r0")], [lit ("r1")], [lit ("r2")], [lit ("r3")], [lit ("r4")],
          [lit ("r5")], [lit ("r6")], [lit ("r7")], [lit ("r8")], [lit ("r9")]] =
      some ((List.range 10).map
        (fun i =>
          ([lit ("p0"), lit ("p1"), lit ("p2"), lit ("p3"), lit ("p4"), lit ("p5"),
            lit ("p6"), lit ("p7"), lit ("p8"), lit ("p9")].getD i [],
          ([[lit ("r0")], [lit ("r1")], [lit ("r2")], [lit ("r3")], [lit ("r4")],
            [lit ("r5")], [lit ("r6")], [lit ("r7")], [lit ("r8")],
            [lit ("r9")]].getD i []).getD 0 []))) :=
  C10_report_ten
    [lit ("p0"), lit ("p1"), lit ("p2"), lit ("p3"), lit ("p4"), lit ("p5"),
      lit ("p6"), lit ("p7"), lit ("p8"), lit ("p9")]
    [[lit ("r0")], [lit ("r1")], [lit ("r2")], [lit ("r3")], [lit ("r4")],
      [lit ("r5")], [lit ("r6")], [lit ("r7")], [lit ("r8")], [lit ("r9")]]
    (by decide) (by decide) (by decide)

end Llama
